import Mathlib

/-
Verification of the generation-orchestration core of
`xinference/model/llm/transformers/qwen2_vl.py` (class `Qwen2VLChatModel`:
`chat`, `_generate`, `_generate_stream`), as a shallow embedding in Lean 4.

The Model Engine collaborators (processor / chat-template application,
`model.generate`, `TextIteratorStreamer`) and the formatting helpers from
`..utils` (`generate_chat_completion`, `generate_completion_chunk`,
`_transform_messages`, `_to_chat_completion_chunks`) are external to the
single source file under verification; they are modelled from the spec at
the interface boundary, each marked by a doc comment starting
"Modelled from the spec:".
-/

namespace Qwen2VL

/-- Role-tagged conversation turn (spec §3 ConversationMessage; the media
content of a turn is irrelevant to the orchestration logic and is folded
into the content string). -/
structure ChatCompletionMessage where
  role : String
  content : String
deriving DecidableEq, Repr

/-- Error taxonomy of spec §7.  `engineError` carries a payload standing for
the original exception object (identity plus traceback), so that
propagation "preserving original failure information" is equality of the
carried value. -/
inductive ChatError where
  | validationError : ChatError
  | templateError : ChatError
  | engineError : String → ChatError
  | generationTimeoutError : ChatError
deriving DecidableEq, Repr

/-- Usage counters carried by completions and fragments; `-1` is the
"unknown" sentinel (spec §6). -/
structure CompletionUsage where
  prompt_tokens : Int
  completion_tokens : Int
  total_tokens : Int
deriving DecidableEq, Repr

/-- One streamed fragment, the CompletionFragment wire shape of spec §6:
`text` is the delta text (absent on the terminal fragment), `finish_reason`
is null until the terminal fragment. -/
structure CompletionChunk where
  id : String
  model : String
  text : Option String
  finish_reason : Option String
  usage : CompletionUsage
deriving DecidableEq, Repr

/-- The synchronous result shape, spec §6 ChatCompletionResult. -/
structure ChatCompletion where
  id : String
  model : String
  text : String
  finish_reason : String
  usage : CompletionUsage
deriving DecidableEq, Repr

/-- Generation config of `chat` (source: a dict read with
`config.get(key, default)`; an absent key is `none`).  Spec §3
GenerationConfig. -/
structure PytorchGenerateConfig where
  stream : Option Bool := none
  max_tokens : Option Nat := none
  temperature : Option Rat := none
deriving DecidableEq, Repr

/-- The streamer constructed at source line 200: we model the construction
parameters that the orchestration layer controls.  The source passes
`timeout=60.0, skip_prompt=True, skip_special_tokens=True`. -/
structure TextIteratorStreamer where
  timeout : Nat
  skip_prompt : Bool
  skip_special_tokens : Bool
deriving DecidableEq, Repr

/-- The streamer instance built by `_generate_stream` (source line 200:
`TextIteratorStreamer(tokenizer, timeout=60.0, skip_prompt=True,
skip_special_tokens=True)`). -/
def qwen2StreamStreamer : TextIteratorStreamer :=
  { timeout := 60, skip_prompt := true, skip_special_tokens := true }

/-- Modelled from the spec: waiting on the transport channel for the next
fragment (the blocking queue inside `TextIteratorStreamer`, external to the
source file) is bounded by the streamer's timeout; a wait exceeding the
timeout surfaces `GenerationTimeoutError` instead of the consumer hanging
(spec §4.2 timeout policy). -/
def channelWait (timeout waited : Nat) (item : Option String) :
    Except ChatError (Option String) :=
  if timeout < waited then .error ChatError.generationTimeoutError else .ok item

/-- Prepared model input (the tensors produced by the processor; only the
input token ids matter to the orchestration layer, for prompt-length
trimming). -/
structure EngineInput where
  input_ids : List Nat
deriving DecidableEq, Repr

/-- The Model Engine collaborator of spec §6, at its interface boundary:
`prepare` is the chat-template application plus processor call (fails with
`TemplateError` on malformed conversations), `generateSync` is the blocking
`model.generate` returning the full id sequence, `decode` is
`batch_decode`, and `generateStream` is the background `model.generate`
feeding the streamer: it is summarised by the finite list of text fragments
written to the channel, in order, together with the error captured in the
write-once error slot (sys.exc_info stash, source lines 210-219) if the
producer failed. -/
structure Engine where
  prepare : List ChatCompletionMessage → Except ChatError EngineInput
  generateSync : EngineInput → Nat → Rat → Except ChatError (List Nat)
  decode : List Nat → String
  generateStream : EngineInput → TextIteratorStreamer → Nat → Rat →
    List String × Option ChatError

/-- Modelled from the spec: `_transform_messages` (defined on the parent
class, not under src/) validates the caller's conversation before any
engine work: an empty `messages` list fails with `ValidationError`
(spec §4.1 input validation).  Valid conversations pass through
unchanged. -/
def _transform_messages (messages : List ChatCompletionMessage) :
    Except ChatError (List ChatCompletionMessage) :=
  if messages.isEmpty then .error ChatError.validationError else .ok messages

/-- Modelled from the spec: `generate_completion_chunk` from
`..utils` (not under src/) is the pure Chunk Formatter (spec §4.3): it
assembles the CompletionFragment wire shape
`(id, model, delta_text, finish_reason, usage)` from its arguments
unchanged.  The `has_choice`/`has_content` flags of the source call sites
only toggle presence of wire sub-objects and are not modelled. -/
def generate_completion_chunk (chunk_text : Option String)
    (finish_reason : Option String) (chunk_id : String) (model_uid : String)
    (prompt_tokens completion_tokens total_tokens : Int) : CompletionChunk :=
  { id := chunk_id
    model := model_uid
    text := chunk_text
    finish_reason := finish_reason
    usage :=
      { prompt_tokens := prompt_tokens
        completion_tokens := completion_tokens
        total_tokens := total_tokens } }

/-- Modelled from the spec: `generate_chat_completion` from `..utils` (not
under src/) assembles the ChatCompletionResult wire shape with
`finish_reason = "stop"` (spec §6).  Its arguments are exactly those of the
source call site (line 176): the model uid and the decoded output text.
The formatter therefore receives neither the prompt nor the completion
token count — the prompt count in particular cannot be computed from these
two arguments by any implementation — so, following the spec's own
sentinel convention for unknown counters (§6 and the design note on
sentinel usage counters in §9), the usage counters are the `-1` "unknown"
sentinel. -/
def generate_chat_completion (model_uid : String) (output_text : String) :
    ChatCompletion :=
  { id := "chatcmpl-" ++ model_uid
    model := model_uid
    text := output_text
    finish_reason := "stop"
    usage :=
      { prompt_tokens := -1
        completion_tokens := -1
        total_tokens := -1 } }

/-- Modelled from the spec: `str(uuid.uuid1())` (source line 224) draws a
fresh stream identifier for the invocation; the uuid library is modelled as
an injective function of an invocation counter, capturing that distinct
invocations draw distinct identifiers. -/
def uuid1 (invocation : Nat) : String :=
  String.mk (List.replicate invocation 'u')

/-- What the consumer of one streaming invocation observes: the finite
sequence of fragments yielded before the generator finishes, and the
producer error re-raised at the end of the stream, if any (source lines
238-240). -/
structure StreamTrace where
  chunks : List CompletionChunk
  error : Option ChatError
deriving DecidableEq, Repr

/-- Shallow embedding of `_generate_stream` (source lines 178-252).  The
generator body: prepare the input (line 186-197, deferred until first
consumption), start the producer, then for each text fragment received
from the streamer yield a non-terminal chunk with sentinel usage counters
(lines 225-236); when the streamer ends, re-raise the captured producer
error if set (lines 238-240), else yield the single terminal chunk
(`text = None`, `finish_reason = "stop"`, lines 242-252).  The whole body
is one value of type `StreamTrace` because the generator is consumed
single-pass to its end. -/
def _generate_stream (E : Engine) (model_uid : String)
    (messages : List ChatCompletionMessage) (config : PytorchGenerateConfig)
    (invocation : Nat) : StreamTrace :=
  match E.prepare messages with
  | .error e => { chunks := [], error := some e }
  | .ok inputs =>
    let res := E.generateStream inputs qwen2StreamStreamer
      (config.max_tokens.getD 512) (config.temperature.getD 1)
    let completion_id := uuid1 invocation
    let contentChunks := res.1.map fun new_text =>
      generate_completion_chunk (some new_text) none completion_id model_uid
        (-1) (-1) (-1)
    match res.2 with
    | some e => { chunks := contentChunks, error := some e }
    | none =>
      { chunks := contentChunks ++
          [generate_completion_chunk none (some "stop") completion_id model_uid
            (-1) (-1) (-1)]
        error := none }

/-- Shallow embedding of `_generate` (source lines 142-176): prepare input,
run the blocking generation, trim the echoed prompt ids
(`out_ids[len(in_ids):]`, lines 167-170), decode, and format the final
completion. -/
def _generate (E : Engine) (model_uid : String)
    (messages : List ChatCompletionMessage) (config : PytorchGenerateConfig) :
    Except ChatError ChatCompletion :=
  match E.prepare messages with
  | .error e => .error e
  | .ok inputs =>
    match E.generateSync inputs (config.max_tokens.getD 512)
        (config.temperature.getD 1) with
    | .error e => .error e
    | .ok generated_ids =>
      let generated_ids_trimmed := generated_ids.drop inputs.input_ids.length
      let output_text := E.decode generated_ids_trimmed
      .ok (generate_chat_completion model_uid output_text)

/-- Modelled from the spec: `_to_chat_completion_chunks` (parent-class
helper, not under src/) wraps each completion chunk of the stream as a chat
completion chunk; the spec has a single CompletionFragment shape (§3, §6),
so the wrapper preserves every fragment and the trace unchanged. -/
def _to_chat_completion_chunks (t : StreamTrace) : StreamTrace := t

/-- The two shapes `chat` can return (spec §4.1): one completed result, or
a lazy single-pass sequence.  The stream side is a thunk because the Python
generator runs only when the returned iterator is consumed. -/
inductive ChatResult where
  | completion : ChatCompletion → ChatResult
  | stream : (Unit → StreamTrace) → ChatResult

/-- Discriminates the shape of a `ChatResult`. -/
def ChatResult.isStreamShape : ChatResult → Bool
  | .completion _ => false
  | .stream _ => true

/-- Shallow embedding of `chat` (source lines 123-140): transform/validate
the messages, default a missing config to `{}` (line 131), read `stream`
with default `False` (line 133), and branch: streaming returns the wrapped
generator unevaluated (lines 135-137), otherwise `_generate` runs to
completion at the call site (lines 138-140).  `invocation` is the uuid
supply threaded to the stream. -/
def chat (E : Engine) (model_uid : String)
    (messages : List ChatCompletionMessage)
    (generate_config : Option PytorchGenerateConfig) (invocation : Nat) :
    Except ChatError ChatResult :=
  match _transform_messages messages with
  | .error e => .error e
  | .ok msgs =>
    let config := generate_config.getD {}
    let stream := config.stream.getD false
    if stream then
      .ok (.stream fun _ =>
        _to_chat_completion_chunks (_generate_stream E model_uid msgs config invocation))
    else
      (_generate E model_uid msgs config).map ChatResult.completion

/-- The error `chat` raises synchronously at the call site, if any. -/
def callSiteError : Except ChatError ChatResult → Option ChatError
  | .error e => some e
  | .ok _ => none

/-- The error observed only once the returned stream is consumed, if the
call returned a stream. -/
def forcedStreamError : Except ChatError ChatResult → Option ChatError
  | .ok (.stream f) => (f ()).error
  | _ => none

/-- A conversation turn used for concrete evaluations. -/
def userMsg : ChatCompletionMessage := { role := "user", content := "hi" }

/-- A concrete engine whose producer completes normally, for concrete
evaluations: three prompt tokens, two generated tokens, two streamed
fragments. -/
def testEngine : Engine where
  prepare := fun msgs =>
    if msgs.isEmpty then .error ChatError.templateError else .ok { input_ids := [1, 2, 3] }
  generateSync := fun inputs _ _ => .ok (inputs.input_ids ++ [7, 8])
  decode := fun ids => String.mk (ids.map fun _ => 'x')
  generateStream := fun _ _ _ _ => (["Hel", "lo"], none)

/-- A concrete engine whose streaming producer fails after two fragments. -/
def errEngine : Engine where
  prepare := fun _ => .ok { input_ids := [1, 2, 3] }
  generateSync := fun _ _ _ => .error (ChatError.engineError "boom")
  decode := fun _ => ""
  generateStream := fun _ _ _ _ => (["par", "tial"], some (ChatError.engineError "boom"))

/-- A concrete engine whose input preparation always fails with
`TemplateError`. -/
def tmplEngine : Engine where
  prepare := fun _ => .error ChatError.templateError
  generateSync := fun _ _ _ => .ok []
  decode := fun _ => ""
  generateStream := fun _ _ _ _ => ([], none)

/-- A config selecting the streaming path, other options unset. -/
def streamTrueConfig : PytorchGenerateConfig := { stream := some true }

/-- A config selecting the synchronous path, other options unset. -/
def streamFalseConfig : PytorchGenerateConfig := { stream := some false }

/-- On a non-empty conversation, `chat` reduces to the branch on the
(defaulted) stream flag. -/
theorem chat_cons_eq (E : Engine) (model_uid : String)
    (a : ChatCompletionMessage) (l : List ChatCompletionMessage)
    (config : PytorchGenerateConfig) (invocation : Nat) :
    chat E model_uid (a :: l) (some config) invocation =
      if config.stream.getD false then
        .ok (.stream fun _ =>
          _to_chat_completion_chunks
            (_generate_stream E model_uid (a :: l) config invocation))
      else
        (_generate E model_uid (a :: l) config).map ChatResult.completion := rfl

/-- Evaluation of `_generate_stream` when the producer completes without
error. -/
theorem generate_stream_ok_eq (E : Engine) (model_uid : String)
    (messages : List ChatCompletionMessage) (config : PytorchGenerateConfig)
    (invocation : Nat) (inputs : EngineInput) (emitted : List String)
    (hp : E.prepare messages = .ok inputs)
    (hg : E.generateStream inputs qwen2StreamStreamer
      (config.max_tokens.getD 512) (config.temperature.getD 1) =
      (emitted, none)) :
    _generate_stream E model_uid messages config invocation =
      { chunks := (emitted.map fun t => generate_completion_chunk (some t) none
          (uuid1 invocation) model_uid (-1) (-1) (-1)) ++
          [generate_completion_chunk none (some "stop") (uuid1 invocation)
            model_uid (-1) (-1) (-1)]
        error := none } := by
  unfold _generate_stream
  rw [hp]
  simp only [hg]

/-- Evaluation of `_generate_stream` when the producer fails after emitting
some fragments. -/
theorem generate_stream_err_eq (E : Engine) (model_uid : String)
    (messages : List ChatCompletionMessage) (config : PytorchGenerateConfig)
    (invocation : Nat) (inputs : EngineInput) (emitted : List String)
    (e : ChatError)
    (hp : E.prepare messages = .ok inputs)
    (hg : E.generateStream inputs qwen2StreamStreamer
      (config.max_tokens.getD 512) (config.temperature.getD 1) =
      (emitted, some e)) :
    _generate_stream E model_uid messages config invocation =
      { chunks := emitted.map fun t => generate_completion_chunk (some t) none
          (uuid1 invocation) model_uid (-1) (-1) (-1)
        error := some e } := by
  unfold _generate_stream
  rw [hp]
  simp only [hg]

/-- Evaluation of `_generate` when preparation and generation succeed. -/
theorem generate_ok_eq (E : Engine) (model_uid : String)
    (messages : List ChatCompletionMessage) (config : PytorchGenerateConfig)
    (inputs : EngineInput) (ids : List Nat)
    (hp : E.prepare messages = .ok inputs)
    (hg : E.generateSync inputs (config.max_tokens.getD 512)
      (config.temperature.getD 1) = .ok ids) :
    _generate E model_uid messages config =
      .ok (generate_chat_completion model_uid
        (E.decode (ids.drop inputs.input_ids.length))) := by
  unfold _generate
  rw [hp]
  simp only [hg]

/-- C1: for every streaming invocation on a non-empty conversation whose
producer completes without error, the sequence of fragments yielded by
`chat` is finite (a list) and ends with exactly one terminal fragment with
`text = none` and `finish_reason = "stop"`; every fragment before the last
has `finish_reason = none`, so the last element is the only one with
non-null finish reason. -/
theorem claim_C1_stream_success_single_terminal
    (E : Engine) (model_uid : String) (a : ChatCompletionMessage)
    (l : List ChatCompletionMessage) (config : PytorchGenerateConfig)
    (invocation : Nat) (inputs : EngineInput) (emitted : List String)
    (hstream : config.stream.getD false = true)
    (hp : E.prepare (a :: l) = .ok inputs)
    (hg : E.generateStream inputs qwen2StreamStreamer
      (config.max_tokens.getD 512) (config.temperature.getD 1) =
      (emitted, none)) :
    ∃ f, chat E model_uid (a :: l) (some config) invocation =
        .ok (.stream f) ∧
      (f ()).error = none ∧
      (f ()).chunks =
        (emitted.map fun t => generate_completion_chunk (some t) none
          (uuid1 invocation) model_uid (-1) (-1) (-1)) ++
        [generate_completion_chunk none (some "stop") (uuid1 invocation)
          model_uid (-1) (-1) (-1)] ∧
      (∀ c ∈ (f ()).chunks.dropLast, c.finish_reason = none) ∧
      (f ()).chunks.getLast? =
        some (generate_completion_chunk none (some "stop") (uuid1 invocation)
          model_uid (-1) (-1) (-1)) := by
  have htrace := generate_stream_ok_eq E model_uid (a :: l) config invocation
    inputs emitted hp hg
  refine ⟨fun _ => _to_chat_completion_chunks
    (_generate_stream E model_uid (a :: l) config invocation),
    ?_, ?_, ?_, ?_, ?_⟩
  · rw [chat_cons_eq, hstream]
    rfl
  · simp only [_to_chat_completion_chunks, htrace]
  · simp only [_to_chat_completion_chunks, htrace]
  · intro c hc
    simp only [_to_chat_completion_chunks, htrace, List.dropLast_concat] at hc
    obtain ⟨t, _, rfl⟩ := List.mem_map.1 hc
    rfl
  · simp only [_to_chat_completion_chunks, htrace]
    exact List.getLast?_concat _

/-- C2: for every streaming invocation on a non-empty conversation whose
producer fails, the consumer first observes exactly the fragments the
producer emitted before failing (all non-terminal), then the captured
error is re-raised on the consumer side as the very same error value, and
no terminal fragment with `finish_reason = "stop"` is ever yielded for
that stream. -/
theorem claim_C2_producer_error_surfaced
    (E : Engine) (model_uid : String) (a : ChatCompletionMessage)
    (l : List ChatCompletionMessage) (config : PytorchGenerateConfig)
    (invocation : Nat) (inputs : EngineInput) (emitted : List String)
    (e : ChatError)
    (hstream : config.stream.getD false = true)
    (hp : E.prepare (a :: l) = .ok inputs)
    (hg : E.generateStream inputs qwen2StreamStreamer
      (config.max_tokens.getD 512) (config.temperature.getD 1) =
      (emitted, some e)) :
    ∃ f, chat E model_uid (a :: l) (some config) invocation =
        .ok (.stream f) ∧
      (f ()).chunks =
        emitted.map (fun t => generate_completion_chunk (some t) none
          (uuid1 invocation) model_uid (-1) (-1) (-1)) ∧
      (f ()).error = some e ∧
      ∀ c ∈ (f ()).chunks, c.finish_reason ≠ some "stop" := by
  have htrace := generate_stream_err_eq E model_uid (a :: l) config invocation
    inputs emitted e hp hg
  refine ⟨fun _ => _to_chat_completion_chunks
    (_generate_stream E model_uid (a :: l) config invocation),
    ?_, ?_, ?_, ?_⟩
  · rw [chat_cons_eq, hstream]
    rfl
  · simp only [_to_chat_completion_chunks, htrace]
  · simp only [_to_chat_completion_chunks, htrace]
  · intro c hc
    simp only [_to_chat_completion_chunks, htrace] at hc
    obtain ⟨t, _, rfl⟩ := List.mem_map.1 hc
    simp [generate_completion_chunk]

/-- C5 counterexample: at a concrete engine and conversation with
`stream = false`, `chat` succeeds with `finish_reason = "stop"` but all
three usage counters equal the `-1` sentinel — the source call site
(line 176) passes only the model uid and the output text to the formatter,
so no computed counters exist.  This refutes the claim that the usage
counters are real computed values rather than the sentinel. -/
theorem claim_C5_counterexample :
    chat testEngine "m" [userMsg] (some streamFalseConfig) 0 =
      .ok (.completion (generate_chat_completion "m"
        (testEngine.decode [7, 8]))) ∧
    (generate_chat_completion "m"
      (testEngine.decode [7, 8])).finish_reason = "stop" ∧
    (generate_chat_completion "m"
      (testEngine.decode [7, 8])).usage.prompt_tokens = -1 ∧
    (generate_chat_completion "m"
      (testEngine.decode [7, 8])).usage.completion_tokens = -1 ∧
    (generate_chat_completion "m"
      (testEngine.decode [7, 8])).usage.total_tokens = -1 :=
  ⟨rfl, rfl, rfl, rfl, rfl⟩

/-- C5 amended: for every non-empty conversation with `stream = false`
whose preparation and generation succeed, `chat` returns a single
completed result with `finish_reason = "stop"`; its usage counters are the
`-1` "unknown" sentinel, because the synchronous call site hands the
formatter only the model uid and the decoded output text. -/
theorem claim_C5_sync_completion_sentinel_usage
    (E : Engine) (model_uid : String) (a : ChatCompletionMessage)
    (l : List ChatCompletionMessage) (config : PytorchGenerateConfig)
    (invocation : Nat) (inputs : EngineInput) (ids : List Nat)
    (hstream : config.stream.getD false = false)
    (hp : E.prepare (a :: l) = .ok inputs)
    (hg : E.generateSync inputs (config.max_tokens.getD 512)
      (config.temperature.getD 1) = .ok ids) :
    ∃ c, chat E model_uid (a :: l) (some config) invocation =
        .ok (.completion c) ∧
      c.finish_reason = "stop" ∧
      c.usage.prompt_tokens = -1 ∧ c.usage.completion_tokens = -1 ∧
      c.usage.total_tokens = -1 := by
  have hgen := generate_ok_eq E model_uid (a :: l) config inputs ids hp hg
  refine ⟨generate_chat_completion model_uid
    (E.decode (ids.drop inputs.input_ids.length)),
    ?_, rfl, rfl, rfl, rfl⟩
  rw [chat_cons_eq, hstream]
  rw [hgen]
  rfl

/-- C4: for the empty conversation (`messages = []`) and every config —
stream set to true, false, or absent, or the whole config absent — `chat`
fails with `ValidationError`, and it does so uniformly in the engine `E`:
the result is the same for every engine, so no Model Engine operation
(input preparation or generation) can have been invoked before the
failure. -/
theorem claim_C4_empty_conversation_validation_error
    (E : Engine) (model_uid : String)
    (generate_config : Option PytorchGenerateConfig) (invocation : Nat) :
    chat E model_uid [] generate_config invocation =
      .error ChatError.validationError := rfl

/-- C3: the `stream` field of the generation config — defaulting to false
when the field is absent or the config is not supplied — fully determines
the shape of a successful `chat` result: `stream = false` yields a single
completion and `stream = true` yields a lazy stream; being a single pure
value, the result cannot switch shape mid-call. -/
theorem claim_C3_stream_flag_determines_shape
    (E : Engine) (model_uid : String)
    (messages : List ChatCompletionMessage)
    (generate_config : Option PytorchGenerateConfig) (invocation : Nat)
    (r : ChatResult)
    (h : chat E model_uid messages generate_config invocation = .ok r) :
    r.isStreamShape = (generate_config.getD {}).stream.getD false := by
  unfold chat at h
  cases hm : _transform_messages messages with
  | error e => rw [hm] at h; exact absurd h (by simp)
  | ok msgs =>
    rw [hm] at h
    simp only at h
    split at h
    · rename_i hs
      cases h
      simp [ChatResult.isStreamShape, hs]
    · rename_i hs
      cases hg : _generate E model_uid msgs (generate_config.getD {}) with
      | error e => rw [hg] at h; exact absurd h (by simp [Except.map])
      | ok c =>
        rw [hg] at h
        simp only [Except.map] at h
        cases h
        simp [ChatResult.isStreamShape, Bool.not_eq_true] at hs ⊢
        exact hs

/-- C6: when a generation-config option is unset the documented default is
applied when invoking generation, in both paths: `max_tokens` defaults to
512 and `temperature` to 1 in `_generate` and `_generate_stream` (the
behaviour with the fields unset equals the behaviour with the explicit
defaults), and `stream` defaults to false both when the field is unset and
when the whole config is not supplied. -/
theorem claim_C6_config_defaults
    (E : Engine) (model_uid : String)
    (messages : List ChatCompletionMessage) (invocation : Nat)
    (s : Option Bool) (mt : Option Nat) (t : Option Rat) :
    _generate E model_uid messages { stream := s } =
      _generate E model_uid messages
        { stream := s, max_tokens := some 512, temperature := some 1 } ∧
    _generate_stream E model_uid messages { stream := s } invocation =
      _generate_stream E model_uid messages
        { stream := s, max_tokens := some 512, temperature := some 1 }
        invocation ∧
    chat E model_uid messages
        (some { max_tokens := mt, temperature := t }) invocation =
      chat E model_uid messages
        (some { stream := some false, max_tokens := mt, temperature := t })
        invocation ∧
    chat E model_uid messages none invocation =
      chat E model_uid messages (some {}) invocation :=
  ⟨rfl, rfl, rfl, rfl⟩

/-- Every fragment of one streaming invocation carries the invocation's
stream identifier, the model uid, and the sentinel usage counters. -/
theorem mem_generate_stream_chunks (E : Engine) (model_uid : String)
    (messages : List ChatCompletionMessage) (config : PytorchGenerateConfig)
    (invocation : Nat) (c : CompletionChunk)
    (hc : c ∈ (_generate_stream E model_uid messages config invocation).chunks) :
    c.id = uuid1 invocation ∧ c.model = model_uid ∧
    c.usage.prompt_tokens = -1 ∧ c.usage.completion_tokens = -1 ∧
    c.usage.total_tokens = -1 := by
  cases hp : E.prepare messages with
  | error e =>
    rw [show _generate_stream E model_uid messages config invocation =
      { chunks := [], error := some e } from by
        unfold _generate_stream; rw [hp]] at hc
    simp at hc
  | ok inputs =>
    rcases hres : E.generateStream inputs qwen2StreamStreamer
      (config.max_tokens.getD 512) (config.temperature.getD 1) with ⟨emitted, err⟩
    cases err with
    | none =>
      rw [generate_stream_ok_eq E model_uid messages config invocation inputs
        emitted hp hres] at hc
      simp only [List.mem_append, List.mem_map, List.mem_singleton] at hc
      rcases hc with ⟨t, _, rfl⟩ | rfl
      · exact ⟨rfl, rfl, rfl, rfl, rfl⟩
      · exact ⟨rfl, rfl, rfl, rfl, rfl⟩
    | some e =>
      rw [generate_stream_err_eq E model_uid messages config invocation inputs
        emitted e hp hres] at hc
      simp only [List.mem_map] at hc
      obtain ⟨t, _, rfl⟩ := hc
      exact ⟨rfl, rfl, rfl, rfl, rfl⟩

/-- C7: the streamer `_generate_stream` constructs for the transport
channel carries a timeout of 60 time-units, and a consumer wait exceeding
that timeout surfaces `GenerationTimeoutError` — a terminal failure of the
stream — instead of the consumer hanging indefinitely. -/
theorem claim_C7_timeout_bound :
    qwen2StreamStreamer.timeout = 60 ∧
    ∀ (waited : Nat) (item : Option String),
      qwen2StreamStreamer.timeout < waited →
      channelWait qwen2StreamStreamer.timeout waited item =
        .error ChatError.generationTimeoutError := by
  refine ⟨rfl, ?_⟩
  intro waited item h
  simp [channelWait, h]

/-- C8 counterexample: an engine whose input preparation always fails with
`TemplateError`, called through `chat` with `stream = true`, raises nothing
at the call site — the call succeeds and returns a stream — and the
`TemplateError` is observed only when the returned sequence is first
consumed.  This refutes the claim that the error is surfaced synchronously
at the `chat` call site in streaming mode. -/
theorem claim_C8_counterexample :
    callSiteError (chat tmplEngine "m" [userMsg]
      (some { stream := some true }) 0) = none ∧
    forcedStreamError (chat tmplEngine "m" [userMsg]
      (some { stream := some true }) 0) = some ChatError.templateError :=
  ⟨rfl, rfl⟩

/-- C8 amended: a preparation failure is surfaced synchronously at the
`chat` call site in `stream = false` mode; in `stream = true` mode the
call itself succeeds with a stream and the failure is raised only when the
returned sequence is first consumed (before any fragment), because input
preparation runs inside the deferred generator. -/
theorem claim_C8_amended_template_error_surfacing
    (E : Engine) (model_uid : String) (a : ChatCompletionMessage)
    (l : List ChatCompletionMessage) (config : PytorchGenerateConfig)
    (invocation : Nat) (e : ChatError)
    (hp : E.prepare (a :: l) = .error e) :
    chat E model_uid (a :: l)
      (some { config with stream := some false }) invocation = .error e ∧
    ∃ f, chat E model_uid (a :: l)
        (some { config with stream := some true }) invocation =
        .ok (.stream f) ∧
      f () = { chunks := [], error := some e } := by
  constructor
  · rw [chat_cons_eq]
    show Except.map ChatResult.completion
      (_generate E model_uid (a :: l) { config with stream := some false }) =
      .error e
    unfold _generate
    rw [hp]
    rfl
  · refine ⟨fun _ => _to_chat_completion_chunks
      (_generate_stream E model_uid (a :: l)
        { config with stream := some true } invocation), ?_, ?_⟩
    · rw [chat_cons_eq]
      rfl
    · show _to_chat_completion_chunks
        (_generate_stream E model_uid (a :: l)
          { config with stream := some true } invocation) = _
      unfold _to_chat_completion_chunks _generate_stream
      rw [hp]

/-- C9: one stream identifier is generated per invocation and carried
unchanged by every fragment of that stream (terminal fragment included),
and distinct invocations — even with identical messages and config — draw
distinct stream identifiers. -/
theorem claim_C9_stream_id_stable_and_unique :
    (∀ (E : Engine) (model_uid : String)
      (messages : List ChatCompletionMessage)
      (config : PytorchGenerateConfig) (invocation : Nat)
      (c : CompletionChunk),
      c ∈ (_generate_stream E model_uid messages config invocation).chunks →
      c.id = uuid1 invocation) ∧
    ∀ n m : Nat, n ≠ m → uuid1 n ≠ uuid1 m := by
  constructor
  · intro E model_uid messages config invocation c hc
    exact (mem_generate_stream_chunks E model_uid messages config invocation
      c hc).1
  · intro n m hnm heq
    have hlen := congrArg (fun s => s.data.length) heq
    simp [uuid1] at hlen
    exact hnm hlen

/-- C10: every fragment of a streaming invocation — the terminal fragment
included — carries the `-1` "unknown" sentinel in all three usage
counters: the streaming path never reports computed token counts. -/
theorem claim_C10_stream_usage_sentinel (E : Engine) (model_uid : String)
    (messages : List ChatCompletionMessage) (config : PytorchGenerateConfig)
    (invocation : Nat) (c : CompletionChunk)
    (hc : c ∈ (_generate_stream E model_uid messages config invocation).chunks) :
    c.usage.prompt_tokens = -1 ∧ c.usage.completion_tokens = -1 ∧
    c.usage.total_tokens = -1 :=
  (mem_generate_stream_chunks E model_uid messages config invocation c hc).2.2

/-- Witness for C1 at a concrete engine: producer emits two fragments and
completes; the stream ends with the single terminal fragment. -/
theorem claim_C1_witness :
    streamTrueConfig.stream.getD false = true ∧
    testEngine.prepare [userMsg] = .ok { input_ids := [1, 2, 3] } ∧
    testEngine.generateStream { input_ids := [1, 2, 3] } qwen2StreamStreamer
      (streamTrueConfig.max_tokens.getD 512)
      (streamTrueConfig.temperature.getD 1) = (["Hel", "lo"], none) ∧
    (∃ f, chat testEngine "m" [userMsg] (some streamTrueConfig) 0 =
        .ok (.stream f) ∧
      (f ()).error = none ∧
      (f ()).chunks =
        ((["Hel", "lo"]).map fun t => generate_completion_chunk (some t) none
          (uuid1 0) "m" (-1) (-1) (-1)) ++
        [generate_completion_chunk none (some "stop") (uuid1 0) "m"
          (-1) (-1) (-1)] ∧
      (∀ c ∈ (f ()).chunks.dropLast, c.finish_reason = none) ∧
      (f ()).chunks.getLast? =
        some (generate_completion_chunk none (some "stop") (uuid1 0) "m"
          (-1) (-1) (-1))) :=
  ⟨rfl, rfl, rfl, claim_C1_stream_success_single_terminal testEngine "m"
    userMsg [] streamTrueConfig 0 { input_ids := [1, 2, 3] } ["Hel", "lo"]
    rfl rfl rfl⟩

/-- Witness for C2 at a concrete engine: producer fails after emitting
two fragments; the consumer sees both, then the same error, and no
terminal fragment. -/
theorem claim_C2_witness :
    streamTrueConfig.stream.getD false = true ∧
    errEngine.prepare [userMsg] = .ok { input_ids := [1, 2, 3] } ∧
    errEngine.generateStream { input_ids := [1, 2, 3] } qwen2StreamStreamer
      (streamTrueConfig.max_tokens.getD 512)
      (streamTrueConfig.temperature.getD 1) =
      (["par", "tial"], some (ChatError.engineError "boom")) ∧
    (∃ f, chat errEngine "m" [userMsg] (some streamTrueConfig) 0 =
        .ok (.stream f) ∧
      (f ()).chunks =
        (["par", "tial"]).map (fun t => generate_completion_chunk (some t)
          none (uuid1 0) "m" (-1) (-1) (-1)) ∧
      (f ()).error = some (ChatError.engineError "boom") ∧
      ∀ c ∈ (f ()).chunks, c.finish_reason ≠ some "stop") :=
  ⟨rfl, rfl, rfl, claim_C2_producer_error_surfaced errEngine "m" userMsg []
    streamTrueConfig 0 { input_ids := [1, 2, 3] } ["par", "tial"]
    (ChatError.engineError "boom") rfl rfl rfl⟩

/-- Witness for C3 at a concrete call: a successful `stream = false` call
returns the completion shape, matching the defaulted flag. -/
theorem claim_C3_witness :
    chat testEngine "m" [userMsg] (some streamFalseConfig) 0 =
      .ok (.completion (generate_chat_completion "m"
        (testEngine.decode [7, 8]))) ∧
    (ChatResult.completion (generate_chat_completion "m"
      (testEngine.decode [7, 8]))).isStreamShape =
      ((some streamFalseConfig).getD {}).stream.getD false :=
  ⟨rfl, claim_C3_stream_flag_determines_shape testEngine "m" [userMsg]
    (some streamFalseConfig) 0 _ rfl⟩

/-- Witness for the amended C5 at a concrete engine: the synchronous
result carries finish reason "stop" and the `-1` sentinel in all three
usage counters. -/
theorem claim_C5_amended_witness :
    streamFalseConfig.stream.getD false = false ∧
    testEngine.prepare [userMsg] = .ok { input_ids := [1, 2, 3] } ∧
    testEngine.generateSync { input_ids := [1, 2, 3] }
      (streamFalseConfig.max_tokens.getD 512)
      (streamFalseConfig.temperature.getD 1) = .ok [1, 2, 3, 7, 8] ∧
    (∃ c, chat testEngine "m" [userMsg] (some streamFalseConfig) 0 =
        .ok (.completion c) ∧
      c.finish_reason = "stop" ∧
      c.usage.prompt_tokens = -1 ∧ c.usage.completion_tokens = -1 ∧
      c.usage.total_tokens = -1) :=
  ⟨rfl, rfl, rfl, claim_C5_sync_completion_sentinel_usage testEngine "m"
    userMsg [] streamFalseConfig 0 { input_ids := [1, 2, 3] } [1, 2, 3, 7, 8]
    rfl rfl rfl⟩

/-- Witness for C7: a wait of 61 units exceeds the 60-unit timeout of the
streamer and surfaces `GenerationTimeoutError`. -/
theorem claim_C7_witness :
    qwen2StreamStreamer.timeout < 61 ∧
    channelWait qwen2StreamStreamer.timeout 61 (some "x") =
      .error ChatError.generationTimeoutError :=
  ⟨by decide, claim_C7_timeout_bound.2 61 (some "x") (by decide)⟩

/-- Witness for the amended C8 at a concrete engine whose preparation
always fails: synchronous surfacing with `stream = false`, deferred
surfacing with `stream = true`. -/
theorem claim_C8_amended_witness :
    tmplEngine.prepare [userMsg] = .error ChatError.templateError ∧
    (chat tmplEngine "m" [userMsg] (some { stream := some false }) 0 =
        .error ChatError.templateError ∧
      ∃ f, chat tmplEngine "m" [userMsg] (some { stream := some true }) 0 =
          .ok (.stream f) ∧
        f () = { chunks := [], error := some ChatError.templateError }) :=
  ⟨rfl, claim_C8_amended_template_error_surfacing tmplEngine "m" userMsg []
    {} 0 ChatError.templateError rfl⟩

/-- Witness for C9: the terminal fragment of a concrete stream carries the
invocation's identifier, and invocations 0 and 1 draw distinct
identifiers. -/
theorem claim_C9_witness :
    (generate_completion_chunk none (some "stop") (uuid1 0) "m"
      (-1) (-1) (-1)) ∈
      (_generate_stream testEngine "m" [userMsg] streamTrueConfig 0).chunks ∧
    (generate_completion_chunk none (some "stop") (uuid1 0) "m"
      (-1) (-1) (-1)).id = uuid1 0 ∧
    (0 : Nat) ≠ 1 ∧ uuid1 0 ≠ uuid1 1 :=
  ⟨by decide,
   claim_C9_stream_id_stable_and_unique.1 testEngine "m" [userMsg]
     streamTrueConfig 0 _ (by decide),
   by decide,
   claim_C9_stream_id_stable_and_unique.2 0 1 (by decide)⟩

/-- Witness for C10: the terminal fragment of a concrete stream carries
the `-1` sentinel in all three usage counters. -/
theorem claim_C10_witness :
    (generate_completion_chunk none (some "stop") (uuid1 0) "m"
      (-1) (-1) (-1)) ∈
      (_generate_stream testEngine "m" [userMsg] streamTrueConfig 0).chunks ∧
    ((generate_completion_chunk none (some "stop") (uuid1 0) "m"
      (-1) (-1) (-1)).usage.prompt_tokens = -1 ∧
     (generate_completion_chunk none (some "stop") (uuid1 0) "m"
      (-1) (-1) (-1)).usage.completion_tokens = -1 ∧
     (generate_completion_chunk none (some "stop") (uuid1 0) "m"
      (-1) (-1) (-1)).usage.total_tokens = -1) :=
  ⟨by decide, claim_C10_stream_usage_sentinel testEngine "m" [userMsg]
    streamTrueConfig 0 _ (by decide)⟩

end Qwen2VL
